import Mathlib

/-!
Shallow embedding of the chat-relay application (`app.py`): configuration
loading, conversation-history fetching, prompt construction, inference-call
handling, reply dispatch, the webhook pipeline and the administrative
configuration-update route.  Outbound network interactions are modelled by
outcome oracles (the possible results of each HTTP call) and by an explicit
trace of the outbound effects each request performs.
-/

namespace GComments

/-- Python f-string interpolation of a possibly-`None` value: `f"{x}"`
renders `None` as the literal string `"None"`. -/
def optStr : Option String → String
  | some s => s
  | none => "None"

/-- Python truthiness of an optional string (`os.getenv` result):
`None` and `""` are falsy. -/
def truthyStr : Option String → Bool
  | some s => s != ""
  | none => false

/-- Python truthiness of an optional integer: `None` and `0` are falsy. -/
def truthyInt : Option Int → Bool
  | some n => n != 0
  | none => false

/-- The process environment as visible through `os.getenv`, restricted to the
keys the application reads.  `none` models an unset variable. -/
structure Env where
  CHATWOOT_BASE_URL : Option String
  CHATWOOT_API_TOKEN : Option String
  CHATWOOT_ACCOUNT_ID : Option String
  SYSTEM_MESSAGE : Option String
  OLLAMA_ENDPOINT : Option String
  LLM_MODEL : Option String
deriving DecidableEq

/-- The three module-level globals of `app.py` (lines 25-27), assigned once
at import time from the environment current at startup. -/
structure Globals where
  baseUrl : Option String
  apiToken : Option String
  accountId : Option String
deriving DecidableEq

/-- `CHATWOOT_BASE_URL = os.getenv(...)` etc. at module load (app.py:25-27). -/
def captureGlobals (e : Env) : Globals :=
  ⟨e.CHATWOOT_BASE_URL, e.CHATWOOT_API_TOKEN, e.CHATWOOT_ACCOUNT_ID⟩

/-- Python's `str.strip()`: remove leading and trailing whitespace. -/
def pyStrip (s : String) : String :=
  String.mk (((s.data.dropWhile Char.isWhitespace).reverse.dropWhile
    Char.isWhitespace).reverse)

/-- A message object inside a history payload, as consumed by
`get_conversation_history`: `message.get('content', '')` (assumed to be a
string in a well-formed payload) and `message.get('message_type')`. -/
structure RawHistMsg where
  content : String
  message_type : Option Int
deriving DecidableEq

/-- The JSON body of a history response: a dict (whose `payload` key may be a
message list or absent), a bare list, or any other JSON value. -/
inductive HistoryData where
  | obj (payload : Option (List RawHistMsg))
  | arr (msgs : List RawHistMsg)
  | other
deriving DecidableEq

/-- app.py:59-63: `data.get('payload', [])` for dicts, the list itself for
lists, `[]` for anything else. -/
def extractMessages : HistoryData → List RawHistMsg
  | .obj payload => payload.getD []
  | .arr msgs => msgs
  | .other => []

/-- A history message survives the loop's filters (app.py:75-83): non-blank
stripped content and `message_type in (0, 1)`. -/
def qualifies (m : RawHistMsg) : Bool :=
  pyStrip m.content != "" && (m.message_type == some 0 || m.message_type == some 1)

/-- app.py:86-87: `f"{prefix} {content}"` with the stripped content. -/
def renderMsg (m : RawHistMsg) : String :=
  (if m.message_type = some 0 then "User: " else "Assistant: ") ++ pyStrip m.content

/-- The formatting loop of `get_conversation_history` (app.py:70-91): skip
non-qualifying messages, append the rendered entry, increment the counter and
break once `message_count >= max_messages`.  The `maxM` argument is the
number of further entries still allowed before the post-increment check
fires; as in the source, the check happens after appending, so even
`maxM = 0` admits one entry. -/
def formatHistory : List RawHistMsg → Nat → List String
  | [], _ => []
  | m :: rest, maxM =>
    if qualifies m then
      if maxM ≤ 1 then [renderMsg m]
      else renderMsg m :: formatHistory rest (maxM - 1)
    else formatHistory rest maxM

/-- An outbound interaction performed during one request: the history GET,
the inference POST, an invocation of the reply dispatcher, and the reply
POST it performs. -/
inductive Effect where
  | historyGet (url : String) (token : String)
  | inferPost (url : String) (model : String) (prompt : String)
  | dispatchCall (conversationId : Int) (content : String)
  | replyPost (url : String) (token : String) (content : String) (msgType : String)
deriving DecidableEq

/-- Possible outcomes of the history GET: a `requests` exception (connection
failure, timeout or non-2xx via `raise_for_status`), a body on which JSON
decoding or processing raises, or a decoded JSON body. -/
inductive FetchOutcome where
  | netErr
  | badPayload
  | ok (d : HistoryData)
deriving DecidableEq

/-- app.py:47: the history request URL, built from the module globals. -/
def historyUrl (g : Globals) (conversationId : String) : String :=
  optStr g.baseUrl ++ "/api/v1/accounts/" ++ optStr g.accountId ++
    "/conversations/" ++ conversationId ++ "/messages"

/-- `get_conversation_history` (app.py:31-110).  Returns the formatted
context string and the trace of outbound calls.  All failure paths are caught
and yield `""`. -/
def get_conversation_history (g : Globals) (conversationId : String)
    (out : FetchOutcome) (maxMessages : Nat) : String × List Effect :=
  if !(truthyStr g.baseUrl && truthyStr g.apiToken && truthyStr g.accountId) then
    ("", [])
  else
    let eff := Effect.historyGet (historyUrl g conversationId) (optStr g.apiToken)
    match out with
    | .netErr => ("", [eff])
    | .badPayload => ("", [eff])
    | .ok d =>
      let messages := extractMessages d
      if messages.isEmpty then ("", [eff])
      else (String.intercalate "\n" (formatHistory messages maxMessages), [eff])

/-- app.py:136-139: prompt assembly, branching on the truthiness of the
rendered context string. -/
def build_full_prompt (system_message context message : String) : String :=
  if context != "" then
    system_message ++ "\n\nConversation history:\n" ++ context ++
      "\n\nUser: " ++ message ++ "\nAssistant:"
  else
    system_message ++ "\n\nUser: " ++ message ++ "\nAssistant:"

/-- One entry of a chat-completion-style `choices` array (present in no
response the code parses, but needed to state what bodies the parser
rejects). -/
structure ChoiceEntry where
  message_content : Option String
  text : Option String
deriving DecidableEq

/-- The decoded JSON body of an inference response: an optional top-level
`response` string and an optional chat-completion-style `choices` array. -/
structure LLMRespBody where
  response : Option String
  choices : List ChoiceEntry
deriving DecidableEq

/-- Possible outcomes of the inference POST: a `requests` exception
(connection failure, timeout or non-2xx), an undecodable body, or a decoded
body. -/
inductive InferOutcome where
  | netErr
  | badBody
  | ok (b : LLMRespBody)
deriving DecidableEq

/-- app.py:197. -/
def apologyConnect : String :=
  "I apologize, but I'm having trouble connecting to my language model right now. Please try again in a moment."

/-- app.py:202. -/
def apologyUnexpected : String :=
  "I apologize, but I encountered an unexpected error. Please try again."

/-- `get_llm_response` (app.py:112-202).  `env` is the environment as
refreshed by the `reload_env()` call at the top of the function; `g` holds
the module globals used by the nested history fetch.  A `requests` exception
yields the connection apology; every other failure (unset endpoint, unusable
body, missing `response` key) is caught by the generic handler and yields the
unexpected-error apology. -/
def get_llm_response (g : Globals) (env : Env) (message : String)
    (conversationId : Option Int) (ho : FetchOutcome) (io : InferOutcome) :
    String × List Effect :=
  let hist :=
    match conversationId with
    | some n => if n = 0 then ("", []) else get_conversation_history g (toString n) ho 50
    | none => ("", [])
  let system_message := env.SYSTEM_MESSAGE.getD "You are a helpful AI assistant."
  let full_prompt := build_full_prompt system_message hist.1 message
  let model := env.LLM_MODEL.getD "dolphin3"
  match env.OLLAMA_ENDPOINT with
  | none => (apologyUnexpected, hist.2)
  | some endpoint =>
    if endpoint = "" then (apologyUnexpected, hist.2)
    else
      let eff := Effect.inferPost (endpoint ++ "/api/generate") model full_prompt
      match io with
      | .netErr => (apologyConnect, hist.2 ++ [eff])
      | .badBody => (apologyUnexpected, hist.2 ++ [eff])
      | .ok b =>
        match b.response with
        | none => (apologyUnexpected, hist.2 ++ [eff])
        | some s => (pyStrip s, hist.2 ++ [eff])

/-- Possible outcomes of the reply POST. -/
inductive DispatchOutcome where
  | netErr
  | ok
deriving DecidableEq

/-- `send_chatwoot_reply` (app.py:204-242).  The account id is re-read from
the current environment (line 208); the base URL and token come from the
module globals (lines 216-218).  The `dispatchCall` effect records that the
dispatcher itself was invoked; `replyPost` records the actual network
call. -/
def send_chatwoot_reply (g : Globals) (env : Env) (conversationId : Int)
    (message : String) (out : DispatchOutcome) : Bool × List Effect :=
  match env.CHATWOOT_ACCOUNT_ID with
  | none => (false, [Effect.dispatchCall conversationId message])
  | some account_id =>
    if account_id = "" then (false, [Effect.dispatchCall conversationId message])
    else
      let url := optStr g.baseUrl ++ "/api/v1/accounts/" ++ account_id ++
        "/conversations/" ++ toString conversationId ++ "/messages"
      let eff := Effect.replyPost url (optStr g.apiToken) message "outgoing"
      match out with
      | .netErr => (false, [Effect.dispatchCall conversationId message, eff])
      | .ok => (true, [Effect.dispatchCall conversationId message, eff])

/-- Character-list prefix test. -/
def charsIsPrefix : List Char → List Char → Bool
  | [], _ => true
  | _ :: _, [] => false
  | p :: ps, c :: cs => p == c && charsIsPrefix ps cs

/-- Character-list infix test: does `pat` occur as a contiguous run in `s`? -/
def listInfix (pat : List Char) : List Char → Bool
  | [] => pat.isEmpty
  | c :: rest => charsIsPrefix pat (c :: rest) || listInfix pat rest

/-- Python's `pat in s` substring test on strings. -/
def strContains (s pat : String) : Bool :=
  listInfix pat.data s.data

/-- Python's `line.startswith(pfx)`. -/
def lineStartsWith (line pfx : String) : Bool :=
  charsIsPrefix pfx.data line.data

/-- A message entry of the inbound webhook body, as read by
`chatwoot_webhook` (app.py:266-274). -/
structure RawEventMsg where
  message_type : Option Int
  content : Option String
deriving DecidableEq

/-- The inbound webhook body: `data.get('event')`, `data.get('messages', [])`
and `data.get('id')`. -/
structure WebhookPayload where
  event : Option String
  messages : List RawEventMsg
  id : Option Int
deriving DecidableEq

/-- The status field of the JSON body the webhook route returns. -/
inductive WebhookStatus where
  | success
  | ignored
  | error
deriving DecidableEq

/-- The JSON body the webhook route returns. -/
structure WebhookResponse where
  status : WebhookStatus
  reason : Option String
  message : Option String
deriving DecidableEq

/-- `jsonify({'status': 'ignored', 'reason': r})`. -/
def webhookIgnored (r : String) : WebhookResponse :=
  ⟨.ignored, some r, none⟩

/-- `jsonify({'status': 'error', 'reason': r})`. -/
def webhookError (r : String) : WebhookResponse :=
  ⟨.error, some r, none⟩

/-- `jsonify({'status': 'success', 'message': m})`. -/
def webhookSuccess (m : String) : WebhookResponse :=
  ⟨.success, none, some m⟩

/-- The `/webhook` handler `chatwoot_webhook` (app.py:244-303), with the
environment refreshed by the `reload_env()` inside `get_llm_response` passed
as `env` and the three outbound calls resolved by the outcome oracles.
Returns the JSON body together with the trace of outbound effects. -/
def chatwoot_webhook (g : Globals) (env : Env) (data : WebhookPayload)
    (ho : FetchOutcome) (io : InferOutcome) (dout : DispatchOutcome) :
    WebhookResponse × List Effect :=
  match data.event with
  | none => (webhookIgnored "not a message event", [])
  | some ev =>
    if ev = "" || !strContains ev "message_created" then
      (webhookIgnored "not a message event", [])
    else
      match data.messages with
      | [] => (webhookError "no messages found", [])
      | latest_message :: _ =>
        if latest_message.message_type ≠ some 0 then
          (webhookIgnored "not an incoming message", [])
        else
          if !(truthyInt data.id && truthyStr latest_message.content) then
            (webhookError "missing required fields", [])
          else
            let n := data.id.getD 0
            let ai := get_llm_response g env (latest_message.content.getD "") (some n) ho io
            let sent := send_chatwoot_reply g env n ai.1 dout
            (if sent.1 then webhookSuccess "response sent"
             else webhookError "failed to send response",
             ai.2 ++ sent.2)

/-- One full request cycle: the module globals were captured from the
environment current at process startup (app.py:22-27), while the handler
reads the environment as refreshed from the `.env` file at request time. -/
def handleRequest (startupEnv currentEnv : Env) (data : WebhookPayload)
    (ho : FetchOutcome) (io : InferOutcome) (dout : DispatchOutcome) :
    WebhookResponse × List Effect :=
  chatwoot_webhook (captureGlobals startupEnv) currentEnv data ho io dout

/-- The per-line rewrite of `update_system_message` (app.py:322-328). -/
def updateEnvLine (newSys newModel : Option String) (line : String) : String :=
  if truthyStr newSys && lineStartsWith line "SYSTEM_MESSAGE=" then
    "SYSTEM_MESSAGE=\x22" ++ newSys.getD "" ++ "\x22\n"
  else if truthyStr newModel && lineStartsWith line "LLM_MODEL=" then
    "LLM_MODEL=" ++ newModel.getD "" ++ "\n"
  else line

/-- The `/update_system_message` handler (app.py:305-344) acting on the
`.env` file, modelled as its list of raw lines: HTTP 400 when neither field
is provided (Python-truthy), otherwise the rewritten file contents. -/
def update_system_message (newSys newModel : Option String)
    (envLines : List String) : Except Nat (List String) :=
  if !truthyStr newSys && !truthyStr newModel then .error 400
  else .ok (envLines.map (updateEnvLine newSys newModel))

/-- Drop one trailing newline character, as a line of a text file read by a
key-value parser. -/
def stripNewlineChars (cs : List Char) : List Char :=
  if cs.getLast? = some '\n' then cs.dropLast else cs

/-- Strip one pair of surrounding double quotes, as the `.env` parser does
for quoted values. -/
def stripQuoteChars (cs : List Char) : List Char :=
  match cs with
  | '\x22' :: rest => if rest.getLast? = some '\x22' then rest.dropLast else cs
  | _ => cs

/-- Reading a key back from the `.env` file (the external dotenv collaborator
on simple `KEY=VALUE` files): the value of the last line starting with
`KEY=`, with a trailing newline and surrounding double quotes stripped. -/
def envValue (envLines : List String) (key : String) : Option String :=
  match (envLines.filter (fun l => lineStartsWith l (key ++ "="))).getLast? with
  | none => none
  | some line =>
    some (String.mk (stripQuoteChars (stripNewlineChars
      (line.data.drop (key ++ "=").length))))

/-- Modelled from the spec: the fallback-tolerant response parser §4.4
describes — attempt the top-level `response` field, fall back to the first
`choices` entry's `message.content`, fall back to its `text` field.  The
source (app.py:176-183) implements no such fallback; this definition exists
to state how the specified parser and the implemented one differ. -/
def specParseInferenceBody (b : LLMRespBody) : Option String :=
  match b.response with
  | some s => some s
  | none =>
    match b.choices.head? with
    | some ch =>
      match ch.message_content with
      | some s => some s
      | none => ch.text
    | none => none

/-- The inference call failed: transport error, undecodable body, or a
decoded body without the `response` key. -/
def inferFails : InferOutcome → Prop
  | .netErr => True
  | .badBody => True
  | .ok b => b.response = none

section Lemmas

/-- The formatting loop takes the first `maxM` qualifying messages in input
order, whenever the cap is positive. -/
theorem formatHistory_eq_take_filter (msgs : List RawHistMsg) :
    ∀ maxM : Nat, 1 ≤ maxM →
      formatHistory msgs maxM = ((msgs.filter qualifies).take maxM).map renderMsg := by
  induction msgs with
  | nil => intro maxM _; simp [formatHistory]
  | cons m rest ih =>
    intro maxM hmax
    by_cases hq : qualifies m
    · rw [formatHistory, if_pos hq, List.filter_cons_of_pos hq]
      by_cases h1 : maxM ≤ 1
      · have : maxM = 1 := by omega
        subst this
        simp
      · rw [if_neg h1]
        obtain ⟨k, rfl⟩ : ∃ k, maxM = k + 1 := ⟨maxM - 1, by omega⟩
        rw [List.take_succ_cons, List.map_cons, Nat.add_sub_cancel, ih k (by omega)]
    · rw [formatHistory, if_neg hq, List.filter_cons_of_neg hq, ih maxM hmax]

/-- Every entry the formatting loop emits carries a non-empty role marker. -/
theorem renderMsg_ne_empty (m : RawHistMsg) : renderMsg m ≠ "" := by
  intro h
  have hlen : (renderMsg m).length = 0 := by rw [h]; rfl
  rw [renderMsg] at hlen
  by_cases h0 : m.message_type = some 0 <;>
    simp [h0, String.length_append] at hlen <;>
    exact absurd hlen.1 (by decide)

theorem formatHistory_entries_ne_empty (msgs : List RawHistMsg) :
    ∀ (maxM : Nat) (e : String), e ∈ formatHistory msgs maxM → e ≠ "" := by
  induction msgs with
  | nil => intro maxM e he; simp [formatHistory] at he
  | cons m rest ih =>
    intro maxM e he
    rw [formatHistory] at he
    by_cases hq : qualifies m
    · rw [if_pos hq] at he
      by_cases h1 : maxM ≤ 1
      · rw [if_pos h1] at he
        simp at he
        subst he
        exact renderMsg_ne_empty m
      · rw [if_neg h1] at he
        rcases List.mem_cons.mp he with h | h
        · subst h; exact renderMsg_ne_empty m
        · exact ih _ e h
    · rw [if_neg hq] at he
      exact ih _ e he

theorem intercalate_go_length (s : String) :
    ∀ (as : List String) (acc : String),
      acc.length ≤ (String.intercalate.go acc s as).length := by
  intro as
  induction as with
  | nil => intro acc; simp [String.intercalate.go]
  | cons a as ih =>
    intro acc
    calc acc.length ≤ (acc ++ s ++ a).length := by
          simp only [String.length_append]
          omega
      _ ≤ (String.intercalate.go (acc ++ s ++ a) s as).length := ih (acc ++ s ++ a)

/-- Joining a list whose head is non-empty yields a non-empty string. -/
theorem intercalate_ne_empty (a : String) (l : List String) (ha : a ≠ "") :
    String.intercalate "\n" (a :: l) ≠ "" := by
  intro hcon
  have h1 : a.length ≤ (String.intercalate "\n" (a :: l)).length := by
    simpa [String.intercalate] using intercalate_go_length "\n" l a
  rw [hcon] at h1
  have hza : a.length = 0 := Nat.le_zero.mp h1
  have : a.data.length = 0 := hza
  have hdata : a.data = [] := List.length_eq_zero.mp this
  cases a
  simp only [String.data] at hdata
  subst hdata
  exact ha rfl

end Lemmas

/-- Claim C4, amended. For every well-formed history payload and every
positive message cap, the formatting loop of `get_conversation_history`
returns exactly the first `maxMessages` qualifying messages (non-blank
content, `message_type` 0 or 1) rendered in API order — hence at most
`maxMessages` entries, with every blank-content or foreign-typed message
excluded, taken by stopping at the cap rather than discarding from the
end.  The unamended claim fails only at `maxMessages = 0`, see
`history_truncation_zero_cap`. -/
theorem history_truncation (msgs : List RawHistMsg) (maxM : Nat) (h : 1 ≤ maxM) :
    formatHistory msgs maxM = ((msgs.filter qualifies).take maxM).map renderMsg ∧
      (formatHistory msgs maxM).length ≤ maxM := by
  refine ⟨formatHistory_eq_take_filter msgs maxM h, ?_⟩
  rw [formatHistory_eq_take_filter msgs maxM h, List.length_map]
  exact List.length_take_le maxM _

theorem history_truncation_witness :
    formatHistory [⟨"a", some 0⟩, ⟨"  ", some 1⟩, ⟨"b", some 5⟩, ⟨"c", some 1⟩,
        ⟨"d", some 0⟩] 2 =
      ((([⟨"a", some 0⟩, ⟨"  ", some 1⟩, ⟨"b", some 5⟩, ⟨"c", some 1⟩,
        ⟨"d", some 0⟩] : List RawHistMsg).filter qualifies).take 2).map renderMsg ∧
      (formatHistory [⟨"a", some 0⟩, ⟨"  ", some 1⟩, ⟨"b", some 5⟩, ⟨"c", some 1⟩,
        ⟨"d", some 0⟩] 2).length ≤ 2 :=
  history_truncation _ 2 (by decide)

/-- Claim C4 counterexample. With `maxMessages = 0` the loop still emits one
entry, because the count check happens only after an entry is appended
(app.py:89-91); so the transcript is not bounded by `maxMessages` at 0. -/
theorem history_truncation_zero_cap :
    formatHistory [⟨" hi ", some 0⟩] 0 = ["User: hi"] ∧
      ¬ (formatHistory [⟨" hi ", some 0⟩] 0).length ≤ 0 := by
  constructor
  · decide
  · decide

/-- Claim C7. Prompt construction (app.py:133-139) is a pure function of the
system message, the rendered transcript and the user message: with a
non-empty transcript it renders the system message, a blank line, the
`Conversation history:` header with the transcript lines, then the
`User: <message>` line and the trailing `Assistant:` marker; with an empty
transcript the history section is omitted entirely.  Determinism is inherent:
`build_full_prompt` is a total function of exactly these three inputs. -/
theorem prompt_rendering (system_message message : String)
    (msgs : List RawHistMsg) (maxM : Nat) :
    (formatHistory msgs maxM = [] →
      build_full_prompt system_message
          (String.intercalate "\n" (formatHistory msgs maxM)) message =
        system_message ++ "\n\nUser: " ++ message ++ "\nAssistant:") ∧
    (formatHistory msgs maxM ≠ [] →
      build_full_prompt system_message
          (String.intercalate "\n" (formatHistory msgs maxM)) message =
        system_message ++ "\n\nConversation history:\n" ++
          String.intercalate "\n" (formatHistory msgs maxM) ++
          "\n\nUser: " ++ message ++ "\nAssistant:") := by
  constructor
  · intro hnil
    rw [hnil]
    show build_full_prompt system_message "" message = _
    rw [build_full_prompt]
    simp
  · intro hne
    obtain ⟨a, l, hal⟩ : ∃ a l, formatHistory msgs maxM = a :: l := by
      cases hfh : formatHistory msgs maxM with
      | nil => exact absurd hfh hne
      | cons a l => exact ⟨a, l, rfl⟩
    have hane : a ≠ "" :=
      formatHistory_entries_ne_empty msgs maxM a (by rw [hal]; simp)
    have hctx : String.intercalate "\n" (formatHistory msgs maxM) ≠ "" := by
      rw [hal]; exact intercalate_ne_empty a l hane
    rw [build_full_prompt, if_pos (by simpa using hctx)]

theorem prompt_rendering_witness :
    build_full_prompt "SYS"
        (String.intercalate "\n" (formatHistory ([] : List RawHistMsg) 50)) "Q" =
      "SYS" ++ "\n\nUser: " ++ "Q" ++ "\nAssistant:" ∧
    build_full_prompt "SYS"
        (String.intercalate "\n" (formatHistory [⟨"hi", some 0⟩] 50)) "Q" =
      "SYS" ++ "\n\nConversation history:\n" ++
        String.intercalate "\n" (formatHistory [⟨"hi", some 0⟩] 50) ++
        "\n\nUser: " ++ "Q" ++ "\nAssistant:" :=
  ⟨(prompt_rendering "SYS" "Q" [] 50).1 rfl,
   (prompt_rendering "SYS" "Q" [⟨"hi", some 0⟩] 50).2 (by decide)⟩

/-- Claim C8. On a network failure (connection error, timeout, non-2xx status)
or a malformed payload, `get_conversation_history` returns the empty
transcript instead of raising (app.py:105-110), so the pipeline proceeds
without history. -/
theorem history_failure_empty (g : Globals) (conversationId : String) (maxM : Nat) :
    (get_conversation_history g conversationId .netErr maxM).1 = "" ∧
      (get_conversation_history g conversationId .badPayload maxM).1 = "" := by
  constructor <;>
    · rw [get_conversation_history]
      split
      · rfl
      · rfl

/-- Claim C10. The history fetcher accepts a JSON object carrying the message
list under `payload`, or a bare JSON list; any other well-formed JSON shape
(including an object without `payload`) yields no messages, and whenever the
extracted list is empty the returned transcript is empty (app.py:56-67). -/
theorem history_response_shapes :
    (∀ l : List RawHistMsg, extractMessages (.obj (some l)) = l) ∧
    (∀ l : List RawHistMsg, extractMessages (.arr l) = l) ∧
    extractMessages (.obj none) = [] ∧
    extractMessages .other = [] ∧
    (∀ (g : Globals) (conversationId : String) (maxM : Nat) (d : HistoryData),
      extractMessages d = [] →
        (get_conversation_history g conversationId (.ok d) maxM).1 = "") := by
  refine ⟨fun l => rfl, fun l => rfl, rfl, rfl, ?_⟩
  intro g conversationId maxM d hd
  rw [get_conversation_history]
  split
  · rfl
  · simp [hd]

theorem history_response_shapes_witness :
    (get_conversation_history ⟨some "B", some "T", some "A"⟩ "7"
      (.ok (.obj none)) 50).1 = "" :=
  history_response_shapes.2.2.2.2 ⟨some "B", some "T", some "A"⟩ "7" 50 (.obj none) rfl

/-- Claim C3. Webhook triage (app.py:256-282): a missing event type or one
without `message_created` is ignored as "not a message event"; an empty
messages list errors with "no messages found"; a first message whose
`message_type` is not incoming (0) is ignored as "not an incoming message";
a missing (falsy) conversation id or message content errors with "missing
required fields" — and in every one of these terminal cases the effect trace
is empty: no history fetch, no inference call, no reply dispatch. -/
theorem webhook_event_filtering (g : Globals) (env : Env) (data : WebhookPayload)
    (ho : FetchOutcome) (io : InferOutcome) (dout : DispatchOutcome) :
    (data.event = none →
      chatwoot_webhook g env data ho io dout = (webhookIgnored "not a message event", [])) ∧
    (∀ ev, data.event = some ev → strContains ev "message_created" = false →
      chatwoot_webhook g env data ho io dout = (webhookIgnored "not a message event", [])) ∧
    (∀ ev, data.event = some ev → strContains ev "message_created" = true →
      data.messages = [] →
      chatwoot_webhook g env data ho io dout = (webhookError "no messages found", [])) ∧
    (∀ ev m rest, data.event = some ev → strContains ev "message_created" = true →
      data.messages = m :: rest → m.message_type ≠ some 0 →
      chatwoot_webhook g env data ho io dout = (webhookIgnored "not an incoming message", [])) ∧
    (∀ ev m rest, data.event = some ev → strContains ev "message_created" = true →
      data.messages = m :: rest → m.message_type = some 0 →
      (truthyInt data.id && truthyStr m.content) = false →
      chatwoot_webhook g env data ho io dout = (webhookError "missing required fields", [])) := by
  have hempty : strContains "" "message_created" = false := by decide
  refine ⟨?_, ?_, ?_, ?_, ?_⟩
  · intro hev
    simp [chatwoot_webhook, hev]
  · intro ev hev hc
    simp [chatwoot_webhook, hev, hc]
  · intro ev hev hc hmsgs
    have hne : ev ≠ "" := by
      intro h; subst h; rw [hempty] at hc; exact Bool.false_ne_true hc
    simp [chatwoot_webhook, hev, hc, hne, hmsgs]
  · intro ev m rest hev hc hmsgs hmt
    have hne : ev ≠ "" := by
      intro h; subst h; rw [hempty] at hc; exact Bool.false_ne_true hc
    simp [chatwoot_webhook, hev, hc, hne, hmsgs, hmt]
  · intro ev m rest hev hc hmsgs hmt hfields
    have hne : ev ≠ "" := by
      intro h; subst h; rw [hempty] at hc; exact Bool.false_ne_true hc
    simp [chatwoot_webhook, hev, hc, hne, hmsgs, hmt, hfields]

theorem webhook_event_filtering_witness :
    chatwoot_webhook ⟨some "B", some "T", some "A"⟩
        ⟨some "B", some "T", some "A", none, some "E", none⟩
        ⟨some "conversation_updated", [⟨some 0, some "Hi"⟩], some 7⟩
        .netErr .netErr .netErr =
      (webhookIgnored "not a message event", []) ∧
    chatwoot_webhook ⟨some "B", some "T", some "A"⟩
        ⟨some "B", some "T", some "A", none, some "E", none⟩
        ⟨some "message_created", [], some 7⟩ .netErr .netErr .netErr =
      (webhookError "no messages found", []) ∧
    chatwoot_webhook ⟨some "B", some "T", some "A"⟩
        ⟨some "B", some "T", some "A", none, some "E", none⟩
        ⟨some "message_created", [⟨some 1, some "Hi"⟩], some 7⟩ .netErr .netErr .netErr =
      (webhookIgnored "not an incoming message", []) ∧
    chatwoot_webhook ⟨some "B", some "T", some "A"⟩
        ⟨some "B", some "T", some "A", none, some "E", none⟩
        ⟨some "message_created", [⟨some 0, some ""⟩], some 7⟩ .netErr .netErr .netErr =
      (webhookError "missing required fields", []) :=
  ⟨(webhook_event_filtering _ _ _ _ _ _).2.1 "conversation_updated" rfl (by decide),
   (webhook_event_filtering _ _ _ _ _ _).2.2.1 "message_created" rfl (by decide) rfl,
   (webhook_event_filtering _ _ _ _ _ _).2.2.2.1 "message_created" ⟨some 1, some "Hi"⟩ []
     rfl (by decide) rfl (by decide),
   (webhook_event_filtering _ _ _ _ _ _).2.2.2.2 "message_created" ⟨some 0, some ""⟩ []
     rfl (by decide) rfl rfl (by decide)⟩

theorem dispatchCall_mem_send (g : Globals) (env : Env) (n : Int) (x : String)
    (dout : DispatchOutcome) :
    Effect.dispatchCall n x ∈ (send_chatwoot_reply g env n x dout).2 := by
  rw [send_chatwoot_reply]
  cases env.CHATWOOT_ACCOUNT_ID with
  | none => simp
  | some a => by_cases ha : a = "" <;> cases dout <;> simp [ha]

theorem get_llm_response_fail (g : Globals) (env : Env) (message : String)
    (conversationId : Option Int) (ho : FetchOutcome) (io : InferOutcome)
    (hfail : inferFails io) :
    (get_llm_response g env message conversationId ho io).1 = apologyConnect ∨
      (get_llm_response g env message conversationId ho io).1 = apologyUnexpected := by
  rw [get_llm_response.eq_def]
  cases henv : env.OLLAMA_ENDPOINT with
  | none => right; rfl
  | some endpoint =>
    by_cases he : endpoint = ""
    · right; simp [he]
    · cases io with
      | netErr => left; simp [he]
      | badBody => right; simp [he]
      | ok b =>
        have hb : b.response = none := hfail
        right; simp [he, hb]

/-- On an actionable incoming message the webhook handler performs the
inference step and then the dispatch step, returning success or the dispatch
error accordingly (app.py:284-296). -/
theorem chatwoot_webhook_actionable (g : Globals) (env : Env) (data : WebhookPayload)
    (ev : String) (m : RawEventMsg) (rest : List RawEventMsg) (n : Int) (c : String)
    (ho : FetchOutcome) (io : InferOutcome) (dout : DispatchOutcome)
    (hev : data.event = some ev) (hc : strContains ev "message_created" = true)
    (hmsgs : data.messages = m :: rest) (hmt : m.message_type = some 0)
    (hid : data.id = some n) (hn : n ≠ 0)
    (hcontent : m.content = some c) (hcne : c ≠ "") :
    chatwoot_webhook g env data ho io dout =
      (if (send_chatwoot_reply g env n (get_llm_response g env c (some n) ho io).1 dout).1
       then webhookSuccess "response sent" else webhookError "failed to send response",
       (get_llm_response g env c (some n) ho io).2 ++
         (send_chatwoot_reply g env n (get_llm_response g env c (some n) ho io).1 dout).2) := by
  have hne : ev ≠ "" := by
    intro h; subst h
    rw [show strContains "" "message_created" = false from by decide] at hc
    exact Bool.false_ne_true hc
  simp only [chatwoot_webhook, hev, hmsgs, hmt, hid, hcontent]
  rw [if_neg (show ¬((ev = "" || !strContains ev "message_created") = true) by
    simp [hne, hc])]
  simp only [ne_eq, not_true_eq_false, if_false, reduceIte]
  rw [if_neg (show ¬((!(truthyInt (some n) && truthyStr (some c))) = true) by
    simp only [truthyInt, truthyStr, Bool.not_and, Bool.not_eq_true', Bool.and_eq_true]
    simp [hn, hcne])]
  simp only [Option.getD_some]

/-- Claim C5. For every actionable incoming message, whenever the inference
call fails in any way (transport error or timeout or non-2xx status,
undecodable body, or a body without the expected key), the pipeline still
invokes the reply dispatcher, and the reply it passes is one of the two
fixed non-empty user-facing apology strings — a reply is always attempted
and never empty (app.py:194-202, 284-296). -/
theorem inference_failure_apology (g : Globals) (env : Env) (data : WebhookPayload)
    (m : RawEventMsg) (rest : List RawEventMsg) (ev : String) (n : Int) (c : String)
    (ho : FetchOutcome) (io : InferOutcome) (dout : DispatchOutcome)
    (hev : data.event = some ev) (hc : strContains ev "message_created" = true)
    (hmsgs : data.messages = m :: rest) (hmt : m.message_type = some 0)
    (hid : data.id = some n) (hn : n ≠ 0)
    (hcontent : m.content = some c) (hcne : c ≠ "")
    (hfail : inferFails io) :
    ∃ ai, Effect.dispatchCall n ai ∈ (chatwoot_webhook g env data ho io dout).2 ∧
      ai = (get_llm_response g env c (some n) ho io).1 ∧
      ai ≠ "" ∧ (ai = apologyConnect ∨ ai = apologyUnexpected) := by
  have hne : ev ≠ "" := by
    intro h; subst h
    rw [show strContains "" "message_created" = false from by decide] at hc
    exact Bool.false_ne_true hc
  have happ := get_llm_response_fail g env c (some n) ho io hfail
  refine ⟨(get_llm_response g env c (some n) ho io).1, ?_, rfl, ?_, happ⟩
  · rw [chatwoot_webhook_actionable g env data ev m rest n c ho io dout
      hev hc hmsgs hmt hid hn hcontent hcne]
    exact List.mem_append_right _ (dispatchCall_mem_send g env n _ dout)
  · rcases happ with h | h <;> rw [h] <;> decide

theorem inference_failure_apology_witness :
    ∃ ai, Effect.dispatchCall 42 ai ∈
        (chatwoot_webhook ⟨some "B", some "T", some "A"⟩
          ⟨some "B", some "T", some "A", some "S", some "E", some "M"⟩
          ⟨some "message_created", [⟨some 0, some "Hi"⟩], some 42⟩
          .netErr .netErr .ok).2 ∧
      ai = (get_llm_response ⟨some "B", some "T", some "A"⟩
          ⟨some "B", some "T", some "A", some "S", some "E", some "M"⟩
          "Hi" (some 42) .netErr .netErr).1 ∧
      ai ≠ "" ∧ (ai = apologyConnect ∨ ai = apologyUnexpected) :=
  inference_failure_apology ⟨some "B", some "T", some "A"⟩
    ⟨some "B", some "T", some "A", some "S", some "E", some "M"⟩
    ⟨some "message_created", [⟨some 0, some "Hi"⟩], some 42⟩
    ⟨some 0, some "Hi"⟩ [] "message_created" 42 "Hi" .netErr .netErr .ok
    rfl (by decide) rfl rfl rfl (by decide) rfl (by decide) trivial

/-- Claim C6. The reply dispatcher requires a non-empty account id from the
environment: when it is unset or empty, dispatch fails immediately with no
network call (only the invocation itself is traced, app.py:208-214);
otherwise exactly one POST of the reply as an outgoing message is attempted
(no retry), succeeding on a 2xx response and failing on any network
exception or non-2xx status (app.py:216-242); and whenever dispatch fails on
an actionable message, the pipeline returns status error with reason
"failed to send response" (app.py:293-296). -/
theorem reply_dispatch_contract (g : Globals) (env : Env) (n : Int) (msg : String)
    (dout : DispatchOutcome) (data : WebhookPayload) (ev : String) (m : RawEventMsg)
    (rest : List RawEventMsg) (c : String) (nid : Int)
    (ho : FetchOutcome) (io : InferOutcome)
    (hev : data.event = some ev) (hc : strContains ev "message_created" = true)
    (hmsgs : data.messages = m :: rest) (hmt : m.message_type = some 0)
    (hid : data.id = some nid) (hn : nid ≠ 0)
    (hcontent : m.content = some c) (hcne : c ≠ "") :
    ((env.CHATWOOT_ACCOUNT_ID = none ∨ env.CHATWOOT_ACCOUNT_ID = some "") →
      send_chatwoot_reply g env n msg dout = (false, [Effect.dispatchCall n msg])) ∧
    (∀ a, env.CHATWOOT_ACCOUNT_ID = some a → a ≠ "" →
      send_chatwoot_reply g env n msg .netErr =
        (false, [Effect.dispatchCall n msg,
          Effect.replyPost (optStr g.baseUrl ++ "/api/v1/accounts/" ++ a ++
            "/conversations/" ++ toString n ++ "/messages")
            (optStr g.apiToken) msg "outgoing"])) ∧
    (∀ a, env.CHATWOOT_ACCOUNT_ID = some a → a ≠ "" →
      send_chatwoot_reply g env n msg .ok =
        (true, [Effect.dispatchCall n msg,
          Effect.replyPost (optStr g.baseUrl ++ "/api/v1/accounts/" ++ a ++
            "/conversations/" ++ toString n ++ "/messages")
            (optStr g.apiToken) msg "outgoing"])) ∧
    ((send_chatwoot_reply g env nid
        (get_llm_response g env c (some nid) ho io).1 dout).1 = false →
      (chatwoot_webhook g env data ho io dout).1 =
        webhookError "failed to send response") := by
  refine ⟨?_, ?_, ?_, ?_⟩
  · rintro (ha | ha) <;> simp [send_chatwoot_reply, ha]
  · intro a ha hane
    simp [send_chatwoot_reply, ha, hane]
  · intro a ha hane
    simp [send_chatwoot_reply, ha, hane]
  · intro hsend
    rw [chatwoot_webhook_actionable g env data ev m rest nid c ho io dout
      hev hc hmsgs hmt hid hn hcontent hcne]
    simp [hsend]

theorem reply_dispatch_contract_witness :
    (send_chatwoot_reply ⟨some "B", some "T", some "A"⟩
        ⟨some "B", some "T", none, some "S", some "E", some "M"⟩ 42 "Hello" .ok =
      (false, [Effect.dispatchCall 42 "Hello"])) ∧
    ((chatwoot_webhook ⟨some "B", some "T", some "A"⟩
        ⟨some "B", some "T", none, some "S", some "E", some "M"⟩
        ⟨some "message_created", [⟨some 0, some "Hi"⟩], some 42⟩
        .netErr (.ok ⟨some "fine", []⟩) .ok).1 =
      webhookError "failed to send response") :=
  ⟨(reply_dispatch_contract ⟨some "B", some "T", some "A"⟩
      ⟨some "B", some "T", none, some "S", some "E", some "M"⟩ 42 "Hello" .ok
      ⟨some "message_created", [⟨some 0, some "Hi"⟩], some 42⟩
      "message_created" ⟨some 0, some "Hi"⟩ [] "Hi" 42 .netErr (.ok ⟨some "fine", []⟩)
      rfl (by decide) rfl rfl rfl (by decide) rfl (by decide)).1 (Or.inl rfl),
   (reply_dispatch_contract ⟨some "B", some "T", some "A"⟩
      ⟨some "B", some "T", none, some "S", some "E", some "M"⟩ 42 "Hello" .ok
      ⟨some "message_created", [⟨some 0, some "Hi"⟩], some 42⟩
      "message_created" ⟨some 0, some "Hi"⟩ [] "Hi" 42 .netErr (.ok ⟨some "fine", []⟩)
      rfl (by decide) rfl rfl rfl (by decide) rfl (by decide)).2.2.2 (by decide)⟩

/-- Claim C1 counterexample.  A chat-completion-style body
`{choices: [{message: {content: "Hello!"}}]}` is not parsed by falling back
to the `choices` entry, contrary to the claim: `get_llm_response` only
recognizes a top-level `response` field (app.py:176-177) and classifies this
body as an unexpected format, so the pipeline returns the apology string
rather than the extracted text the specified fallback chain (here
`specParseInferenceBody`) would produce. -/
theorem inference_no_choices_fallback :
    (get_llm_response ⟨none, none, none⟩
        ⟨none, none, none, some "S", some "http://llm", some "m"⟩
        "Hi" none .netErr (.ok ⟨none, [⟨some "Hello!", none⟩]⟩)).1 = apologyUnexpected ∧
      specParseInferenceBody ⟨none, [⟨some "Hello!", none⟩]⟩ = some "Hello!" ∧
      apologyUnexpected ≠ "Hello!" :=
  ⟨by decide, rfl, by decide⟩

/-- Claim C1, amended.  The inference call recognizes exactly one response
shape: a top-level `response` string field, whose stripped value becomes the
reply.  Any decoded body without that field — including chat-completion-style
`choices` bodies — is classified as an unexpected format and the pipeline
returns the fixed non-empty user-facing apology string instead of the raw
error, never crashing (app.py:174-183, 199-202). -/
theorem inference_response_parsing (g : Globals) (env : Env) (message : String)
    (conversationId : Option Int) (ho : FetchOutcome) (e : String) (b : LLMRespBody)
    (he : env.OLLAMA_ENDPOINT = some e) (hene : e ≠ "") :
    (∀ s, b.response = some s →
      (get_llm_response g env message conversationId ho (.ok b)).1 = pyStrip s) ∧
    (b.response = none →
      (get_llm_response g env message conversationId ho (.ok b)).1 = apologyUnexpected ∧
        apologyUnexpected ≠ "") := by
  constructor
  · intro s hs
    rw [get_llm_response.eq_def]
    simp [he, hene, hs]
  · intro hn
    refine ⟨?_, by decide⟩
    rw [get_llm_response.eq_def]
    simp [he, hene, hn]

theorem inference_response_parsing_witness :
    ((get_llm_response ⟨some "B", some "T", some "A"⟩
        ⟨some "B", some "T", some "A", some "S", some "E", some "M"⟩
        "Hi" none .netErr (.ok ⟨some " ok ", []⟩)).1 = pyStrip " ok ") ∧
    ((get_llm_response ⟨some "B", some "T", some "A"⟩
        ⟨some "B", some "T", some "A", some "S", some "E", some "M"⟩
        "Hi" none .netErr (.ok ⟨none, [⟨some "Hello!", none⟩]⟩)).1 = apologyUnexpected ∧
      apologyUnexpected ≠ "") :=
  ⟨(inference_response_parsing ⟨some "B", some "T", some "A"⟩
      ⟨some "B", some "T", some "A", some "S", some "E", some "M"⟩
      "Hi" none .netErr "E" ⟨some " ok ", []⟩ rfl (by decide)).1 " ok " rfl,
   (inference_response_parsing ⟨some "B", some "T", some "A"⟩
      ⟨some "B", some "T", some "A", some "S", some "E", some "M"⟩
      "Hi" none .netErr "E" ⟨none, [⟨some "Hello!", none⟩]⟩ rfl (by decide)).2 rfl⟩

theorem get_conversation_history_effects (g : Globals) (conversationId : String)
    (ho : FetchOutcome) (maxM : Nat)
    (hall : (truthyStr g.baseUrl && truthyStr g.apiToken && truthyStr g.accountId) = true) :
    (get_conversation_history g conversationId ho maxM).2 =
      [Effect.historyGet (historyUrl g conversationId) (optStr g.apiToken)] := by
  rw [get_conversation_history, hall]
  cases ho with
  | netErr => rfl
  | badPayload => rfl
  | ok d =>
    by_cases hie : (extractMessages d).isEmpty <;> simp [hie]

theorem get_llm_response_effects (g : Globals) (env : Env) (message : String)
    (n : Int) (ho : FetchOutcome) (io : InferOutcome) (e : String)
    (hn : n ≠ 0) (he : env.OLLAMA_ENDPOINT = some e) (hene : e ≠ "") :
    (get_llm_response g env message (some n) ho io).2 =
      (get_conversation_history g (toString n) ho 50).2 ++
        [Effect.inferPost (e ++ "/api/generate") (env.LLM_MODEL.getD "dolphin3")
          (build_full_prompt (env.SYSTEM_MESSAGE.getD "You are a helpful AI assistant.")
            (get_conversation_history g (toString n) ho 50).1 message)] := by
  rw [get_llm_response.eq_def]
  simp only [he, hn, if_neg hene, if_neg (fun h => hn h)]
  cases io with
  | netErr => simp [hn, hene]
  | badBody => simp [hn, hene]
  | ok b => cases hr : b.response <;> simp [hr, hn, hene]

/-- Claim C2 counterexample.  The chat-platform base URL was updated in the
backing store (`http://old` at startup, `http://new` in the current `.env`),
yet the request's history fetch and reply dispatch still target
`http://old`: the base URL (like the API token) lives in module-level
globals assigned once at import (app.py:25-27) and is never re-read, so not
every configuration field reflects the latest administrative update. -/
theorem config_reload_counterexample :
    (handleRequest
        ⟨some "http://old", some "T", some "A", some "S", some "http://llm", some "m"⟩
        ⟨some "http://new", some "T", some "A", some "S", some "http://llm", some "m"⟩
        ⟨some "message_created", [⟨some 0, some "Hi"⟩], some 42⟩
        .netErr (.ok ⟨some "ok", []⟩) .ok).2 =
      [Effect.historyGet "http://old/api/v1/accounts/A/conversations/42/messages" "T",
       Effect.inferPost "http://llm/api/generate" "m" "S\n\nUser: Hi\nAssistant:",
       Effect.dispatchCall 42 "ok",
       Effect.replyPost "http://old/api/v1/accounts/A/conversations/42/messages" "T"
         "ok" "outgoing"] ∧
      "http://old/api/v1/accounts/A/conversations/42/messages" ≠
        "http://new/api/v1/accounts/A/conversations/42/messages" :=
  ⟨by decide, by decide⟩

/-- Claim C2, amended.  Per request, only part of the configuration is
re-read from the refreshed environment: the inference endpoint, model name
and system message (app.py:133, 150-151) and the account id used by the
reply dispatcher (app.py:208) come from the current environment, while the
history fetch and the reply POST build their URLs and credentials from the
base URL, API token and (for history) account id captured once at startup
into module globals (app.py:25-27, 47-49, 216-218) — those fields do not
reflect later administrative updates. -/
theorem config_freshness (startupEnv currentEnv : Env) (conversationId message : String)
    (n : Int) (ho : FetchOutcome) (io : InferOutcome) (dout : DispatchOutcome)
    (b tok acct e acct2 : String)
    (hb : startupEnv.CHATWOOT_BASE_URL = some b) (hbne : b ≠ "")
    (ht : startupEnv.CHATWOOT_API_TOKEN = some tok) (htne : tok ≠ "")
    (ha : startupEnv.CHATWOOT_ACCOUNT_ID = some acct) (hane : acct ≠ "")
    (he : currentEnv.OLLAMA_ENDPOINT = some e) (hene : e ≠ "")
    (ha2 : currentEnv.CHATWOOT_ACCOUNT_ID = some acct2) (ha2ne : acct2 ≠ "")
    (hn : n ≠ 0) :
    (get_conversation_history (captureGlobals startupEnv) conversationId ho 50).2 =
      [Effect.historyGet (b ++ "/api/v1/accounts/" ++ acct ++ "/conversations/" ++
        conversationId ++ "/messages") tok] ∧
    (get_llm_response (captureGlobals startupEnv) currentEnv message (some n) ho io).2 =
      (get_conversation_history (captureGlobals startupEnv) (toString n) ho 50).2 ++
        [Effect.inferPost (e ++ "/api/generate") (currentEnv.LLM_MODEL.getD "dolphin3")
          (build_full_prompt
            (currentEnv.SYSTEM_MESSAGE.getD "You are a helpful AI assistant.")
            (get_conversation_history (captureGlobals startupEnv) (toString n) ho 50).1
            message)] ∧
    (send_chatwoot_reply (captureGlobals startupEnv) currentEnv n message dout).2 =
      [Effect.dispatchCall n message,
       Effect.replyPost (b ++ "/api/v1/accounts/" ++ acct2 ++ "/conversations/" ++
         toString n ++ "/messages") tok message "outgoing"] := by
  refine ⟨?_, ?_, ?_⟩
  · rw [get_conversation_history_effects _ _ _ _
      (by simp [captureGlobals, truthyStr, hb, ht, ha, hbne, htne, hane])]
    simp [historyUrl, captureGlobals, hb, ht, ha, optStr]
  · exact get_llm_response_effects _ _ _ _ _ _ _ hn he hene
  · cases dout <;>
      simp [send_chatwoot_reply, ha2, ha2ne, captureGlobals, hb, ht, optStr]

theorem config_freshness_witness :
    (get_conversation_history (captureGlobals
        ⟨some "http://old", some "T", some "A", some "S", some "http://llm", some "m"⟩)
        "42" .netErr 50).2 =
      [Effect.historyGet ("http://old" ++ "/api/v1/accounts/" ++ "A" ++
        "/conversations/" ++ "42" ++ "/messages") "T"] ∧
    (send_chatwoot_reply (captureGlobals
        ⟨some "http://old", some "T", some "A", some "S", some "http://llm", some "m"⟩)
        ⟨some "http://new", some "T", some "A2", some "S", some "http://llm", some "m"⟩
        42 "Hi" .ok).2 =
      [Effect.dispatchCall 42 "Hi",
       Effect.replyPost ("http://old" ++ "/api/v1/accounts/" ++ "A2" ++
         "/conversations/" ++ toString (42 : Int) ++ "/messages") "T" "Hi" "outgoing"] :=
  ⟨(config_freshness
      ⟨some "http://old", some "T", some "A", some "S", some "http://llm", some "m"⟩
      ⟨some "http://new", some "T", some "A2", some "S", some "http://llm", some "m"⟩
      "42" "Hi" 42 .netErr .netErr .ok "http://old" "T" "A" "http://llm" "A2"
      rfl (by decide) rfl (by decide) rfl (by decide) rfl (by decide) rfl (by decide)
      (by decide)).1,
   (config_freshness
      ⟨some "http://old", some "T", some "A", some "S", some "http://llm", some "m"⟩
      ⟨some "http://new", some "T", some "A2", some "S", some "http://llm", some "m"⟩
      "42" "Hi" 42 .netErr .netErr .ok "http://old" "T" "A" "http://llm" "A2"
      rfl (by decide) rfl (by decide) rfl (by decide) rfl (by decide) rfl (by decide)
      (by decide)).2.2⟩

theorem charsIsPrefix_iff (p : List Char) : ∀ l, charsIsPrefix p l = true ↔ p <+: l := by
  induction p with
  | nil => intro l; simp [charsIsPrefix]
  | cons a as ih =>
    intro l
    cases l with
    | nil => simp [charsIsPrefix]
    | cons b bs =>
      rw [charsIsPrefix, Bool.and_eq_true, List.cons_prefix_cons, ih bs]
      simp [beq_iff_eq]

theorem startsWith_LLM_new (x : String) :
    lineStartsWith ("LLM_MODEL=" ++ x ++ "\n") "LLM_MODEL=" = true := rfl

theorem sys_not_prefix_of_llm (r : List Char) :
    charsIsPrefix "SYSTEM_MESSAGE=".data ("LLM_MODEL=".data ++ r) = false := rfl

theorem updateEnvLine_model_yes (x : String) (hx : x ≠ "") (l : String)
    (hl : lineStartsWith l "LLM_MODEL=" = true) :
    updateEnvLine none (some x) l = "LLM_MODEL=" ++ x ++ "\n" := by
  rw [updateEnvLine]
  rw [if_neg (by simp [truthyStr])]
  rw [if_pos (by simp [truthyStr, hx, hl])]
  rfl

theorem updateEnvLine_model_no (x : String) (l : String)
    (hl : lineStartsWith l "LLM_MODEL=" = false) :
    updateEnvLine none (some x) l = l := by
  rw [updateEnvLine]
  rw [if_neg (by simp [truthyStr]), if_neg (by simp [hl])]

theorem filter_model_map_update (x : String) (hx : x ≠ "") :
    ∀ lines : List String,
      (lines.map (updateEnvLine none (some x))).filter
          (fun l => lineStartsWith l "LLM_MODEL=") =
        (lines.filter (fun l => lineStartsWith l "LLM_MODEL=")).map
          (fun _ => "LLM_MODEL=" ++ x ++ "\n") := by
  intro lines
  induction lines with
  | nil => rfl
  | cons l ls ih =>
    rw [List.map_cons, List.filter_cons, List.filter_cons]
    by_cases hl : lineStartsWith l "LLM_MODEL=" = true
    · rw [updateEnvLine_model_yes x hx l hl]
      simp [startsWith_LLM_new x, hl, ih]
    · have hl' : lineStartsWith l "LLM_MODEL=" = false := by simpa using hl
      rw [updateEnvLine_model_no x l hl']
      simp [hl', ih]

theorem filter_sys_map_update (x : String) (hx : x ≠ "") :
    ∀ lines : List String,
      (lines.map (updateEnvLine none (some x))).filter
          (fun l => lineStartsWith l "SYSTEM_MESSAGE=") =
        lines.filter (fun l => lineStartsWith l "SYSTEM_MESSAGE=") := by
  intro lines
  induction lines with
  | nil => rfl
  | cons l ls ih =>
    rw [List.map_cons, List.filter_cons, List.filter_cons]
    by_cases hl : lineStartsWith l "LLM_MODEL=" = true
    · have hsysl : lineStartsWith l "SYSTEM_MESSAGE=" = false := by
        obtain ⟨t, htl⟩ := (charsIsPrefix_iff "LLM_MODEL=".data l.data).mp hl
        show charsIsPrefix "SYSTEM_MESSAGE=".data l.data = false
        rw [← htl]
        exact sys_not_prefix_of_llm t
      have hsysnew : lineStartsWith ("LLM_MODEL=" ++ x ++ "\n") "SYSTEM_MESSAGE=" = false := rfl
      rw [updateEnvLine_model_yes x hx l hl]
      simp [hsysnew, hsysl, ih]
    · have hl' : lineStartsWith l "LLM_MODEL=" = false := by simpa using hl
      rw [updateEnvLine_model_no x l hl']
      by_cases hs : lineStartsWith l "SYSTEM_MESSAGE=" = true
      · simp [hs, ih]
      · have hs' : lineStartsWith l "SYSTEM_MESSAGE=" = false := by simpa using hs
        simp [hs', ih]

/-- Claim C9 counterexample.  With a backing store that has no `LLM_MODEL=`
line, `update({model: "x"})` succeeds but rewrites nothing — the handler only
replaces existing lines and never appends one (app.py:320-328) — so the
subsequent read of the model is `none`, not `"x"`; the round-trip claimed for
every starting configuration fails. -/
theorem config_update_missing_line :
    update_system_message none (some "x") ["SYSTEM_MESSAGE=\x22hi\x22\n"] =
      .ok ["SYSTEM_MESSAGE=\x22hi\x22\n"] ∧
    envValue ["SYSTEM_MESSAGE=\x22hi\x22\n"] "LLM_MODEL" = none ∧
    (none : Option String) ≠ some "x" :=
  ⟨rfl, rfl, by decide⟩

/-- Claim C9, amended.  The configuration update fails with HTTP 400 when
called with no recognized (non-empty) field; otherwise it rewrites exactly
the existing lines of the provided fields in the backing store, leaving
every other line untouched — but a provided field with no existing line is
silently not persisted.  For every starting configuration that already
contains an `LLM_MODEL=` line, `update({model: x})` followed by a read
yields model `x` while the system message is unchanged
(app.py:305-344). -/
theorem config_update_contract (lines : List String) (x : String)
    (hx : x ≠ "") (hq : stripQuoteChars x.data = x.data)
    (hany : lines.filter (fun l => lineStartsWith l "LLM_MODEL=") ≠ []) :
    (∀ ls : List String, update_system_message none none ls = .error 400) ∧
    update_system_message none (some x) lines =
      .ok (lines.map (updateEnvLine none (some x))) ∧
    envValue (lines.map (updateEnvLine none (some x))) "LLM_MODEL" = some x ∧
    envValue (lines.map (updateEnvLine none (some x))) "SYSTEM_MESSAGE" =
      envValue lines "SYSTEM_MESSAGE" := by
  have hkeyM : ("LLM_MODEL" ++ "=" : String) = "LLM_MODEL=" := by decide
  have hkeyS : ("SYSTEM_MESSAGE" ++ "=" : String) = "SYSTEM_MESSAGE=" := by decide
  refine ⟨fun ls => rfl, ?_, ?_, ?_⟩
  · rw [update_system_message]
    rw [if_neg (by simp [truthyStr, hx])]
  · rw [envValue, hkeyM]
    rw [filter_model_map_update x hx lines]
    obtain ⟨y, hy⟩ : ∃ y, (lines.filter (fun l => lineStartsWith l "LLM_MODEL=")).getLast?
        = some y := by
      cases h : (lines.filter (fun l => lineStartsWith l "LLM_MODEL=")).getLast? with
      | none => exact absurd (List.getLast?_eq_none_iff.mp h) hany
      | some y => exact ⟨y, rfl⟩
    rw [List.getLast?_map, hy]
    show some (String.mk (stripQuoteChars (stripNewlineChars
      (("LLM_MODEL=" ++ x ++ "\n").data.drop ("LLM_MODEL" ++ "=").length)))) = some x
    have hdata : ("LLM_MODEL=" ++ x ++ "\n").data =
        "LLM_MODEL=".data ++ (x.data ++ ['\n']) := by
      simp [String.data_append]
    rw [hdata, List.drop_left' (by decide)]
    rw [stripNewlineChars, if_pos (List.getLast?_concat x.data),
      List.dropLast_concat, hq]
  · rw [envValue, envValue, hkeyS]
    rw [filter_sys_map_update x hx lines]

theorem config_update_contract_witness :
    update_system_message none none ["SYSTEM_MESSAGE=\x22hi\x22\n"] = .error 400 ∧
    update_system_message none (some "new")
        ["SYSTEM_MESSAGE=\x22hi\x22\n", "LLM_MODEL=old\n"] =
      .ok (["SYSTEM_MESSAGE=\x22hi\x22\n", "LLM_MODEL=old\n"].map
        (updateEnvLine none (some "new"))) ∧
    envValue (["SYSTEM_MESSAGE=\x22hi\x22\n", "LLM_MODEL=old\n"].map
        (updateEnvLine none (some "new"))) "LLM_MODEL" = some "new" ∧
    envValue (["SYSTEM_MESSAGE=\x22hi\x22\n", "LLM_MODEL=old\n"].map
        (updateEnvLine none (some "new"))) "SYSTEM_MESSAGE" =
      envValue ["SYSTEM_MESSAGE=\x22hi\x22\n", "LLM_MODEL=old\n"] "SYSTEM_MESSAGE" :=
  ⟨(config_update_contract ["SYSTEM_MESSAGE=\x22hi\x22\n", "LLM_MODEL=old\n"] "new"
      (by decide) (by decide) (by decide)).1 ["SYSTEM_MESSAGE=\x22hi\x22\n"],
   (config_update_contract ["SYSTEM_MESSAGE=\x22hi\x22\n", "LLM_MODEL=old\n"] "new"
      (by decide) (by decide) (by decide)).2⟩

end GComments
